import Mathlib

/-!
Shallow embedding of the token-lifecycle core of the CJDropshipping client
(`src/auth.py` and `src/client.py`), and proofs about the claims of the
specification.

The embedding models:

* the persisted token record (the dict stored in the `.token` file);
* `get_stored_token` / the JSON save performed by `get_access_token` and
  `refresh_token` (modelled at the level of the serialized file content);
* `CJDropshippingClient._ensure_valid_token`, with `datetime.fromisoformat`
  modelled for the canonical vendor format `YYYY-MM-DDTHH:MM:SS` with an
  optional `+HH:MM` / `-HH:MM` offset (the `'Z'` suffix is normalized by the
  source via `str.replace('Z', '+00:00')`, which is modelled verbatim), and
  the Python aware/naive comparison semantics (comparing a naive datetime
  with an aware one raises `TypeError`);
* `CJDropshippingClient._make_request` with its response classification.

The two network operations `get_access_token` and `refresh_token` of
`src/auth.py` are pure oracles in an `Env` record (both return the parsed
token dict on success and `None` on any failure, as the Python functions
catch all their exceptions and return `None`); every call made to them is
recorded in a trace so that call-count claims can be stated.
-/

namespace CJD

/-- The token dict persisted in the `.token` file and passed around by
`_ensure_valid_token` (`src/auth.py`, `src/client.py`).  The
`accessTokenExpiryDate` key may be absent from the stored dict, hence the
`Option`; accessing a missing key raises `KeyError` in Python. -/
structure TokenData where
  accessToken : String
  accessTokenExpiryDate : Option String
  refreshToken : String
deriving DecidableEq

/-- A network call made by `_ensure_valid_token`: either the credential
exchange `get_access_token()` or `refresh_token(rt)` (`src/auth.py`). -/
inductive NetCall
  | get_access_token
  | refresh_token (rt : String)
deriving DecidableEq

/-- A Python `datetime` as produced by `datetime.fromisoformat`: either
offset-aware (denoting an absolute UTC instant, in seconds since the epoch)
or offset-naive (carrying the wall-clock value read as seconds since the
epoch, with no timezone attached). -/
inductive PyDatetime
  | naive (v : Int)
  | aware (utc : Int)
deriving DecidableEq

/-- `s.replace('Z', '+00:00')` from `src/client.py` line 40, on the
underlying character list: every occurrence of `'Z'` becomes `+00:00`. -/
def replaceZ : List Char → List Char
  | [] => []
  | c :: cs =>
    if c = 'Z' then '+' :: '0' :: '0' :: ':' :: '0' :: '0' :: replaceZ cs
    else c :: replaceZ cs

/-- String-level wrapper for `replaceZ`. -/
def replaceZstr (s : String) : String := String.mk (replaceZ s.data)

/-- Numeric value of a decimal digit character, `none` otherwise. -/
def digitVal (c : Char) : Option Nat :=
  if c.isDigit then some (c.toNat - 48) else none

/-- Parse exactly two decimal digits. -/
def digits2 : List Char → Option (Nat × List Char)
  | a :: b :: r =>
    match digitVal a, digitVal b with
    | some x, some y => some (10 * x + y, r)
    | _, _ => none
  | _ => none

/-- Parse exactly four decimal digits. -/
def digits4 : List Char → Option (Nat × List Char)
  | a :: b :: c :: d :: r =>
    match digitVal a, digitVal b, digitVal c, digitVal d with
    | some x, some y, some z, some w => some (1000 * x + 100 * y + 10 * z + w, r)
    | _, _, _, _ => none
  | _ => none

/-- Consume one expected character. -/
def expectChar (c : Char) : List Char → Option (List Char)
  | x :: xs => if x = c then some xs else none
  | [] => none

/-- Gregorian leap year. -/
def isLeap (y : Nat) : Bool :=
  y % 4 = 0 && (y % 100 ≠ 0 || y % 400 = 0)

/-- Number of days in a month of a given year. -/
def daysInMonth (y m : Nat) : Nat :=
  if m = 2 then (if isLeap y then 29 else 28)
  else if m = 4 ∨ m = 6 ∨ m = 9 ∨ m = 11 then 30
  else 31

/-- Days from 1970-01-01 to the civil date `y-m-d` (standard
days-from-civil algorithm, valid for years `1 ≤ y ≤ 9999`). -/
def daysFromCivil (y m d : Nat) : Int :=
  let y2 : Nat := if m ≤ 2 then y - 1 else y
  let era : Nat := y2 / 400
  let yoe : Nat := y2 % 400
  let mp : Nat := if 2 < m then m - 3 else m + 9
  let doy : Nat := (153 * mp + 2) / 5 + d - 1
  let doe : Nat := yoe * 365 + yoe / 4 - yoe / 100 + doy
  (era * 146097 + doe : Int) - 719468

/-- Parse a separator character followed by two digits. -/
def parse2At (sep : Char) (cs : List Char) : Option (Nat × List Char) :=
  match expectChar sep cs with
  | none => none
  | some r => digits2 r

/-- Parse the six numeric fields of `YYYY-MM-DDTHH:MM:SS`. -/
def parseSixFields (cs : List Char) :
    Option (Nat × Nat × Nat × Nat × Nat × Nat × List Char) :=
  match digits4 cs with
  | none => none
  | some (y, r1) =>
    match parse2At '-' r1 with
    | none => none
    | some (mo, r2) =>
      match parse2At '-' r2 with
      | none => none
      | some (d, r3) =>
        match parse2At 'T' r3 with
        | none => none
        | some (h, r4) =>
          match parse2At ':' r4 with
          | none => none
          | some (mi, r5) =>
            match parse2At ':' r5 with
            | none => none
            | some (s, r6) => some (y, mo, d, h, mi, s, r6)

/-- Range validity of the six timestamp fields, as checked by
`datetime.fromisoformat` (out-of-range fields raise `ValueError`). -/
def fieldsValid (y mo d h mi s : Nat) : Prop :=
  1 ≤ y ∧ 1 ≤ mo ∧ mo ≤ 12 ∧ 1 ≤ d ∧ d ≤ daysInMonth y mo ∧
    h ≤ 23 ∧ mi ≤ 59 ∧ s ≤ 59

instance (y mo d h mi s : Nat) : Decidable (fieldsValid y mo d h mi s) := by
  unfold fieldsValid; infer_instance

/-- Parse the optional `+HH:MM` / `-HH:MM` offset suffix: an empty rest
yields a naive datetime of value `base`, an offset yields an aware datetime
whose UTC instant subtracts the offset, anything else fails. -/
def parseOffsetTail (base : Int) (cs : List Char) : Option PyDatetime :=
  match cs with
  | [] => some (PyDatetime.naive base)
  | c :: r =>
    if c = '+' ∨ c = '-' then
      match digits2 r with
      | none => none
      | some (oh, r2) =>
        match expectChar ':' r2 with
        | none => none
        | some r3 =>
          match digits2 r3 with
          | none => none
          | some (om, r4) =>
            if oh ≤ 23 ∧ om ≤ 59 ∧ r4 = [] then
              some (PyDatetime.aware
                (if c = '+' then base - (oh * 3600 + om * 60 : Nat)
                 else base + (oh * 3600 + om * 60 : Nat)))
            else none
    else none

/-- Model of Python's `datetime.fromisoformat` for the canonical vendor
timestamp shape `YYYY-MM-DDTHH:MM:SS` with an optional `+HH:MM` or `-HH:MM`
offset suffix.  A string with an offset yields an aware datetime (its UTC
instant), an offset-less string yields a naive datetime, and anything else
(bad digits, out-of-range fields, trailing garbage) raises `ValueError`,
modelled as `none`. -/
def fromisoformat (str : String) : Option PyDatetime :=
  match parseSixFields str.data with
  | none => none
  | some (y, mo, d, h, mi, s, r) =>
    if fieldsValid y mo d h mi s then
      parseOffsetTail (daysFromCivil y mo d * 86400 + (h * 3600 + mi * 60 + s : Nat)) r
    else none

/-- Python comparison `a <= b` on datetimes: defined between two aware or
two naive values; mixing aware and naive raises `TypeError` (`none`). -/
def datetime_le : PyDatetime → PyDatetime → Option Bool
  | PyDatetime.aware a, PyDatetime.aware b => some (decide (a ≤ b))
  | PyDatetime.naive a, PyDatetime.naive b => some (decide (a ≤ b))
  | _, _ => none

/-- The environment of `_ensure_valid_token`: the current UTC time
(`datetime.now(timezone.utc)`, seconds since the epoch) and the outcomes of
the two network operations of `src/auth.py`.  Both Python functions catch
every exception internally and return either the parsed token dict or
`None`, hence the `Option` results. -/
structure Env where
  now : Int
  get_access_token : Option TokenData
  refresh_token : String → Option TokenData

/-- Message of the exception raised at `src/client.py` line 36. -/
def msgNoToken : String :=
  "Impossible d\x27obtenir un token d\x27accès. Vérifiez vos identifiants."

/-- Message of the exception raised at `src/client.py` line 49 (always
caught by the surrounding `except`). -/
def msgNoNewToken : String := "Impossible d\x27obtenir un nouveau token d\x27accès."

/-- Message of the exception raised at `src/client.py` line 55. -/
def msgNoTokenFallback : String := "Impossible d\x27obtenir un token d\x27accès."

/-- Result of the `try` block of `_ensure_valid_token` (`src/client.py`
lines 39-49): either the (possibly replaced) token dict, or an exception
caught by the `except` clause. -/
inductive TryOutcome
  | ok (td : TokenData)
  | exc (msg : String)
deriving DecidableEq

/-- Result of `_ensure_valid_token`: the access token assigned to
`self.access_token`, or the raised exception's message. -/
inductive GuardResult
  | token (t : String)
  | failure (msg : String)
deriving DecidableEq

/-- The `try` block of `_ensure_valid_token` (`src/client.py` lines 39-49),
run on a stored token dict `td`: parse the expiry (a missing key raises
`KeyError`, an unparseable value `ValueError`), compare it with `now` (a
naive expiry raises `TypeError`), and if expired call `refresh_token`,
falling back to `get_access_token` and raising when both fail.  Returns the
outcome together with the trace of network calls made. -/
def tryBody (env : Env) (td : TokenData) : TryOutcome × List NetCall :=
  match td.accessTokenExpiryDate with
  | none => (TryOutcome.exc "KeyError", [])
  | some s =>
    match fromisoformat (replaceZstr s) with
    | none => (TryOutcome.exc "ValueError", [])
    | some expiry =>
      match datetime_le expiry (PyDatetime.aware env.now) with
      | none => (TryOutcome.exc "TypeError", [])
      | some true =>
        match env.refresh_token td.refreshToken with
        | some td2 => (TryOutcome.ok td2, [NetCall.refresh_token td.refreshToken])
        | none =>
          match env.get_access_token with
          | some td2 =>
            (TryOutcome.ok td2,
              [NetCall.refresh_token td.refreshToken, NetCall.get_access_token])
          | none =>
            (TryOutcome.exc msgNoNewToken,
              [NetCall.refresh_token td.refreshToken, NetCall.get_access_token])
      | some false => (TryOutcome.ok td, [])

/-- `CJDropshippingClient._ensure_valid_token` (`src/client.py` lines
26-57), as a function of the environment and of the result of
`get_stored_token()`.  Returns the token assigned to `self.access_token`
(or the raised exception) together with the trace of network calls. -/
def ensure_valid_token (env : Env) (stored : Option TokenData) :
    GuardResult × List NetCall :=
  match stored with
  | none =>
    match env.get_access_token with
    | some td => (GuardResult.token td.accessToken, [NetCall.get_access_token])
    | none => (GuardResult.failure msgNoToken, [NetCall.get_access_token])
  | some td =>
    match tryBody env td with
    | (TryOutcome.ok td2, calls) => (GuardResult.token td2.accessToken, calls)
    | (TryOutcome.exc _, calls) =>
      match env.get_access_token with
      | some td2 =>
        (GuardResult.token td2.accessToken, calls ++ [NetCall.get_access_token])
      | none =>
        (GuardResult.failure msgNoTokenFallback, calls ++ [NetCall.get_access_token])

/-- Value found under the `result` key of a vendor response envelope: a
JSON boolean, or some other JSON value (Python's `x is False` test is true
only for the boolean `False`). -/
inductive RVal
  | rbool (b : Bool)
  | rother
deriving DecidableEq

/-- The parsed JSON body of a vendor business response, as accessed by
`_make_request` via `data.get(...)`: each key may be absent (`None`).
`payload` stands for the rest of the body (the vendor `data` field), which
`_make_request` never inspects. -/
structure Envelope where
  code : Option Int
  result : Option RVal
  message : Option String
  payload : Option String
deriving DecidableEq

/-- Outcome of the `requests.request` dispatch inside `_make_request`: a
transport-level exception, or an HTTP response with a status and parsed
JSON body. -/
inductive HttpOutcome
  | networkError
  | response (status : Nat) (body : Envelope)
deriving DecidableEq

/-- Result of `_make_request`: the exception propagated from
`_ensure_valid_token`, a transport exception, the HTTP-error exception
(`src/client.py` line 106), the API-error exception (line 103), or the
parsed body returned unchanged (line 104). -/
inductive ExecResult
  | guardFailure (msg : String)
  | networkFailure
  | httpError (status : Nat)
  | apiError (code : Option Int) (message : Option String)
  | success (body : Envelope)
deriving DecidableEq

/-- Response classification of `_make_request` (`src/client.py` lines
99-106): on HTTP 200, raise the API error exactly when `data.get('code')
!= 200 and data.get('result') is False`, otherwise return the body
unchanged; on any other status raise the HTTP error. -/
def classifyResponse (status : Nat) (body : Envelope) : ExecResult :=
  if status = 200 then
    if body.code ≠ some 200 ∧ body.result = some (RVal.rbool false) then
      ExecResult.apiError body.code body.message
    else ExecResult.success body
  else ExecResult.httpError status

/-- `CJDropshippingClient._make_request` (`src/client.py` lines 59-106):
first run `_ensure_valid_token`; if it raises, propagate without issuing
any HTTP request; otherwise dispatch exactly one HTTPS request carrying
the guard's token in the `CJ-Access-Token` header and classify the
outcome.  The middle component is the list of tokens attached to
dispatched requests (empty when no request was issued). -/
def make_request (env : Env) (stored : Option TokenData)
    (http : String → HttpOutcome) : ExecResult × List String × List NetCall :=
  match ensure_valid_token env stored with
  | (GuardResult.failure e, calls) => (ExecResult.guardFailure e, [], calls)
  | (GuardResult.token tok, calls) =>
    match http tok with
    | HttpOutcome.networkError => (ExecResult.networkFailure, [tok], calls)
    | HttpOutcome.response status body => (classifyResponse status body, [tok], calls)

/-- JSON string escaping as performed by `json.dump` on the characters
that need it for round-tripping: `"` and `\` are backslash-escaped. -/
def escStr : List Char → List Char
  | [] => []
  | c :: cs => (if c = '"' ∨ c = '\\' then ['\\', c] else [c]) ++ escStr cs

/-- Literal opening of the serialized token dict, up to and including the
opening quote of the `accessToken` value. -/
def litA : List Char := ("\x7b\"accessToken\": \"").data

/-- Literal between the `accessToken` value and the opening quote of the
`accessTokenExpiryDate` value. -/
def litB : List Char := (", \"accessTokenExpiryDate\": \"").data

/-- Literal between the `accessTokenExpiryDate` value and the opening
quote of the `refreshToken` value. -/
def litC : List Char := (", \"refreshToken\": \"").data

/-- Literal closing brace of the serialized token dict. -/
def litD : List Char := ("\x7d").data

/-- `json.dump` of the three-field token dict (`src/auth.py` lines 54-55
and 98-99), with Python's default separators and the vendor's field
order. -/
def encodeTok (a e rt : String) : List Char :=
  litA ++ escStr a.data ++ ['"'] ++ litB ++ escStr e.data ++ ['"'] ++
    litC ++ escStr rt.data ++ ['"'] ++ litD

/-- Parse a JSON string body up to its closing quote, undoing the
backslash escapes; returns the decoded characters and the rest of the
input. -/
def parseJStr : List Char → Option (List Char × List Char)
  | [] => none
  | c :: cs =>
    if c = '\\' then
      match cs with
      | [] => none
      | d :: ds =>
        match parseJStr ds with
        | none => none
        | some p => some (d :: p.1, p.2)
    else if c = '"' then some ([], cs)
    else
      match parseJStr cs with
      | none => none
      | some p => some (c :: p.1, p.2)

/-- Consume an expected literal character sequence. -/
def expectLit : List Char → List Char → Option (List Char)
  | [], r => some r
  | _ :: _, [] => none
  | l :: ls, c :: cs => if c = l then expectLit ls cs else none

/-- `json.load` of the token file content as written by `encodeTok`: any
content not of that shape fails to decode (`none`), which models the
`json.load` exception swallowed by `get_stored_token`. -/
def decodeTok (cs : List Char) : Option TokenData :=
  match expectLit litA cs with
  | none => none
  | some r1 =>
    match parseJStr r1 with
    | none => none
    | some (a, r2) =>
      match expectLit litB r2 with
      | none => none
      | some r3 =>
        match parseJStr r3 with
        | none => none
        | some (e, r4) =>
          match expectLit litC r4 with
          | none => none
          | some r5 =>
            match parseJStr r5 with
            | none => none
            | some (rt, r6) =>
              match expectLit litD r6 with
              | none => none
              | some r7 =>
                if r7 = [] then
                  some ⟨String.mk a, some (String.mk e), String.mk rt⟩
                else none

/-- State of the `.token` file: absent, or present with some content. -/
inductive FileState
  | noFile
  | content (cs : List Char)
deriving DecidableEq

/-- The token-file write performed on success by `get_access_token` and
`refresh_token` (`src/auth.py` lines 54-55, 98-99). -/
def saveToken (a e rt : String) : FileState := FileState.content (encodeTok a e rt)

/-- `get_stored_token` (`src/auth.py` lines 113-126): `None` when the file
does not exist, the parsed dict when it parses, and `None` when reading or
parsing raises (the `except` clause swallows every exception). -/
def get_stored_token : FileState → Option TokenData
  | FileState.noFile => none
  | FileState.content cs => decodeTok cs

/-- Fixture: a stored record whose expiry (2099, UTC) is far in the future. -/
def tdFuture : TokenData := ⟨"AT1", some "2099-01-01T00:00:00Z", "RT1"⟩

/-- Fixture: a stored record whose expiry (2020, UTC) is in the past. -/
def tdExpired : TokenData := ⟨"OLD", some "2020-01-01T00:00:00Z", "RTOLD"⟩

/-- Fixture: a stored record with a naive (offset-less) expiry in 2099. -/
def tdNaive : TokenData := ⟨"STORED", some "2099-01-01T00:00:00", "RTN"⟩

/-- Fixture: a stored record with an unparseable expiry. -/
def tdBadExpiry : TokenData := ⟨"BAD", some "bogus", "RTB"⟩

/-- Fixture: the record returned by a successful credential exchange. -/
def tdNew : TokenData := ⟨"NEW", some "2099-01-01T00:00:00Z", "RT2"⟩

/-- Fixture: the record returned by a successful refresh. -/
def tdRef : TokenData := ⟨"REFRESHED", some "2099-01-01T00:00:00Z", "RT3"⟩

/-- Fixture: both network operations fail; clock at the epoch. -/
def envNone : Env := { now := 0, get_access_token := none, refresh_token := fun _ => none }

/-- Fixture: refresh always fails (revoked refresh token), credential
exchange succeeds; clock in 2033. -/
def envAuthOnly : Env :=
  { now := 2000000000, get_access_token := some tdNew, refresh_token := fun _ => none }

/-- Fixture: refresh succeeds, credential exchange fails; clock in 2033. -/
def envRefreshOk : Env :=
  { now := 2000000000, get_access_token := none, refresh_token := fun _ => some tdRef }

/-- Fixture: credential exchange succeeds; clock at the epoch. -/
def envNow0Auth : Env :=
  { now := 0, get_access_token := some tdNew, refresh_token := fun _ => none }

/-- Fixture: the HTTP 200 envelope `code:200, result:false,
message:"insufficient balance"` of the C1 scenario. -/
def envlInsufficient : Envelope :=
  ⟨some 200, some (RVal.rbool false), some "insufficient balance", none⟩

/-- Fixture: an HTTP 200 envelope with a failing business code. -/
def envlApiErr : Envelope :=
  ⟨some 1600, some (RVal.rbool false), some "insufficient balance", none⟩

/-- Fixture: an HTTP 200 envelope with no `result` key and a non-200 code. -/
def envlNoResult : Envelope := ⟨some 500, none, some "odd body", some "payload"⟩

/-- Fixture: a vendor that answers every request with HTTP 200 and body `e`. -/
def httpOk200 (e : Envelope) : String → HttpOutcome :=
  fun _ => HttpOutcome.response 200 e

/-- Helper: consuming a literal from itself followed by a rest succeeds and
returns the rest. -/
theorem expectLit_append (lit r : List Char) : expectLit lit (lit ++ r) = some r := by
  induction lit with
  | nil => simp [expectLit]
  | cons c cs ih => simp [expectLit, ih]

/-- Helper: consuming a literal from exactly itself leaves nothing. -/
theorem expectLit_self (lit : List Char) : expectLit lit lit = some [] := by
  have h := expectLit_append lit []
  simpa using h

/-- Helper: the JSON string-body parser inverts the escaper. -/
theorem parseJStr_escStr (s r : List Char) :
    parseJStr (escStr s ++ '"' :: r) = some (s, r) := by
  induction s with
  | nil =>
    simp only [escStr, List.nil_append]
    rw [parseJStr.eq_def]
    simp
  | cons c cs ih =>
    by_cases h1 : c = '"' ∨ c = '\\'
    · have h2 : escStr (c :: cs) = '\\' :: c :: escStr cs := by simp [escStr, h1]
      rw [h2, List.cons_append, List.cons_append, parseJStr.eq_def]
      simp [ih]
    · push_neg at h1
      have h2 : escStr (c :: cs) = c :: escStr cs := by simp [escStr, h1.1, h1.2]
      rw [h2, List.cons_append, parseJStr.eq_def]
      simp [h1.1, h1.2, ih]

/-- Claim C9: saving any token record (accessToken, accessTokenExpiryDate,
refreshToken) to the token store and then loading it yields a record equal
in all three fields to the original. -/
theorem spec_C9_roundtrip (a e rt : String) :
    get_stored_token (saveToken a e rt) = some ⟨a, some e, rt⟩ := by
  simp [get_stored_token, saveToken, decodeTok, encodeTok, List.append_assoc,
    expectLit_append, parseJStr_escStr, expectLit_self]

/-- Claim C2: for every stored record whose (aware, UTC) expiry instant is
at or before the current time — including exactly equal — the guard takes
the refresh path, falling back to re-authentication, and its outcome is
determined entirely by the refresh and credential-exchange oracles: the
stale stored access token is never returned. -/
theorem spec_C2_expired_refresh_path (env : Env) (td : TokenData) (s : String) (t : Int)
    (hs : td.accessTokenExpiryDate = some s)
    (hp : fromisoformat (replaceZstr s) = some (PyDatetime.aware t))
    (hle : t ≤ env.now) :
    ensure_valid_token env (some td) =
      (match env.refresh_token td.refreshToken with
       | some td2 => (GuardResult.token td2.accessToken,
           [NetCall.refresh_token td.refreshToken])
       | none =>
         match env.get_access_token with
         | some td3 => (GuardResult.token td3.accessToken,
             [NetCall.refresh_token td.refreshToken, NetCall.get_access_token])
         | none => (GuardResult.failure msgNoTokenFallback,
             [NetCall.refresh_token td.refreshToken, NetCall.get_access_token,
               NetCall.get_access_token])) := by
  have hd : datetime_le (PyDatetime.aware t) (PyDatetime.aware env.now) = some true := by
    simp [datetime_le, hle]
  cases hr : env.refresh_token td.refreshToken <;>
    cases ha : env.get_access_token <;>
      simp [ensure_valid_token, tryBody, hs, hp, hd, hr, ha]

/-- Witness for C2: a record expiring in 2020 checked in 2033, with a
working refresh oracle, is refreshed (one refresh call, no credential
exchange) and the refreshed token is returned. -/
theorem spec_C2_witness :
    ensure_valid_token envRefreshOk (some tdExpired) =
      (GuardResult.token "REFRESHED", [NetCall.refresh_token "RTOLD"]) :=
  spec_C2_expired_refresh_path envRefreshOk tdExpired "2020-01-01T00:00:00Z"
    1577836800 rfl (by decide) (by decide)

/-- Claim C3: for every stored record whose (aware, UTC) expiry instant is
strictly in the future, the guard returns the stored access token and
makes zero network calls. -/
theorem spec_C3_valid_token_no_calls (env : Env) (td : TokenData) (s : String) (t : Int)
    (hs : td.accessTokenExpiryDate = some s)
    (hp : fromisoformat (replaceZstr s) = some (PyDatetime.aware t))
    (hlt : env.now < t) :
    ensure_valid_token env (some td) = (GuardResult.token td.accessToken, []) := by
  have hnle : ¬ (t ≤ env.now) := not_le.mpr hlt
  simp [ensure_valid_token, tryBody, hs, hp, datetime_le, hnle]

/-- Witness for C3: a record expiring in 2099 checked at the epoch is
returned as is, with an empty network-call trace. -/
theorem spec_C3_witness :
    ensure_valid_token envNone (some tdFuture) = (GuardResult.token "AT1", []) :=
  spec_C3_valid_token_no_calls envNone tdFuture "2099-01-01T00:00:00Z"
    4070908800 rfl (by decide) (by decide)

/-- Claim C4: for every expired stored record whose refresh fails, the
guard falls back to the credential exchange: if it succeeds its token is
returned, and if it fails too the guard raises instead of returning a
token. -/
theorem spec_C4_refresh_failure_fallback (env : Env) (td : TokenData) (s : String) (t : Int)
    (hs : td.accessTokenExpiryDate = some s)
    (hp : fromisoformat (replaceZstr s) = some (PyDatetime.aware t))
    (hle : t ≤ env.now)
    (hr : env.refresh_token td.refreshToken = none) :
    ensure_valid_token env (some td) =
      (match env.get_access_token with
       | some td2 => (GuardResult.token td2.accessToken,
           [NetCall.refresh_token td.refreshToken, NetCall.get_access_token])
       | none => (GuardResult.failure msgNoTokenFallback,
           [NetCall.refresh_token td.refreshToken, NetCall.get_access_token,
             NetCall.get_access_token])) := by
  have hd : datetime_le (PyDatetime.aware t) (PyDatetime.aware env.now) = some true := by
    simp [datetime_le, hle]
  cases ha : env.get_access_token <;>
    simp [ensure_valid_token, tryBody, hs, hp, hd, hr, ha]

/-- Witness for C4: expired access token plus revoked refresh token plus
valid account credentials yields the new token via the authenticate
path. -/
theorem spec_C4_witness :
    ensure_valid_token envAuthOnly (some tdExpired) =
      (GuardResult.token "NEW",
        [NetCall.refresh_token "RTOLD", NetCall.get_access_token]) :=
  spec_C4_refresh_failure_fallback envAuthOnly tdExpired "2020-01-01T00:00:00Z"
    1577836800 rfl (by decide) (by decide) rfl

/-- Claim C6 counterexample: the naive timestamp `2099-01-01T00:00:00`
parses as offset-less with UTC reading 4070908800, which is in the future
of `now = 0`; the claim says the guard would then return the stored token
with no network call, but the code re-authenticates instead (the
naive/aware comparison raises `TypeError`, caught by the `except` clause,
which calls `get_access_token`). -/
theorem spec_C6_counterexample :
    fromisoformat (replaceZstr "2099-01-01T00:00:00") =
      some (PyDatetime.naive 4070908800) ∧
    envNow0Auth.now < 4070908800 ∧
    ensure_valid_token envNow0Auth (some tdNaive) =
      (GuardResult.token "NEW", [NetCall.get_access_token]) ∧
    ensure_valid_token envNow0Auth (some tdNaive) ≠
      (GuardResult.token "STORED", []) := by decide

/-- Claim C6 (amended): a naive (offset-less but otherwise well-formed)
expiry timestamp is not normalized to UTC; the aware/naive comparison
raises `TypeError`, the `except` clause fires, and the guard conservatively
performs a full credential exchange, regardless of the timestamp's value. -/
theorem spec_C6_amended (env : Env) (td : TokenData) (s : String) (v : Int)
    (hs : td.accessTokenExpiryDate = some s)
    (hp : fromisoformat (replaceZstr s) = some (PyDatetime.naive v)) :
    ensure_valid_token env (some td) =
      (match env.get_access_token with
       | some td2 => (GuardResult.token td2.accessToken, [NetCall.get_access_token])
       | none => (GuardResult.failure msgNoTokenFallback, [NetCall.get_access_token])) := by
  cases ha : env.get_access_token <;>
    simp [ensure_valid_token, tryBody, hs, hp, datetime_le, ha]

/-- Witness for the amended C6: the naive future timestamp record makes the
guard re-authenticate. -/
theorem spec_C6_amended_witness :
    ensure_valid_token envNow0Auth (some tdNaive) =
      (GuardResult.token "NEW", [NetCall.get_access_token]) :=
  spec_C6_amended envNow0Auth tdNaive "2099-01-01T00:00:00" 4070908800 rfl (by decide)

/-- Claim C7: a stored record whose expiry field is missing or unparseable
is treated as expired: the guard never returns the stored access token and
performs a re-authentication, its outcome determined entirely by the
credential-exchange oracle. -/
theorem spec_C7_malformed_expiry_reauth (env : Env) (td : TokenData)
    (h : td.accessTokenExpiryDate = none ∨
         ∃ s, td.accessTokenExpiryDate = some s ∧ fromisoformat (replaceZstr s) = none) :
    ensure_valid_token env (some td) =
      (match env.get_access_token with
       | some td2 => (GuardResult.token td2.accessToken, [NetCall.get_access_token])
       | none => (GuardResult.failure msgNoTokenFallback, [NetCall.get_access_token])) := by
  rcases h with h | ⟨s, hs, hp⟩ <;>
    cases ha : env.get_access_token <;>
      simp [ensure_valid_token, tryBody, *]

/-- Witness for C7: an unparseable expiry string triggers the credential
exchange and the stored token is not used. -/
theorem spec_C7_witness :
    ensure_valid_token envAuthOnly (some tdBadExpiry) =
      (GuardResult.token "NEW", [NetCall.get_access_token]) :=
  spec_C7_malformed_expiry_reauth envAuthOnly tdBadExpiry
    (Or.inr ⟨"bogus", rfl, by decide⟩)

/-- Claim C8: whenever the store load yields the absent signal (file
missing, corrupt or unreadable content), the guard falls through to the
credential exchange, self-healing: its outcome is determined entirely by
the credential-exchange oracle. -/
theorem spec_C8_corrupt_store_self_heals (fs : FileState) (env : Env)
    (h : get_stored_token fs = none) :
    ensure_valid_token env (get_stored_token fs) =
      (match env.get_access_token with
       | some td => (GuardResult.token td.accessToken, [NetCall.get_access_token])
       | none => (GuardResult.failure msgNoToken, [NetCall.get_access_token])) := by
  rw [h]
  cases ha : env.get_access_token <;> simp [ensure_valid_token, ha]

/-- Witness for C8: a file holding unparseable content loads as absent and
a subsequent guard call authenticates and returns the fresh token. -/
theorem spec_C8_witness :
    ensure_valid_token envAuthOnly (get_stored_token (FileState.content ("corrupt").data)) =
      (GuardResult.token "NEW", [NetCall.get_access_token]) :=
  spec_C8_corrupt_store_self_heals (FileState.content ("corrupt").data) envAuthOnly
    (by decide)

/-- Claim C5: the Token Guard runs before the HTTPS dispatch in every
Executor invocation: no request is dispatched when the guard raises, and
any dispatched request carries exactly the token the guard produced. -/
theorem spec_C5_guard_gates_dispatch (env : Env) (stored : Option TokenData)
    (http : String → HttpOutcome) :
    ((make_request env stored http).2.1 = [] ↔
      ∃ e, (ensure_valid_token env stored).1 = GuardResult.failure e) ∧
    (∀ tok, tok ∈ (make_request env stored http).2.1 →
      (ensure_valid_token env stored).1 = GuardResult.token tok) := by
  rcases hg : ensure_valid_token env stored with ⟨g, calls⟩
  cases g with
  | failure e => simp [make_request, hg]
  | token tok => cases hh : http tok <;> simp [make_request, hg, hh]

/-- Witness for C5: in the concrete valid-token scenario the dispatched
token "AT1" is the guard's token. -/
theorem spec_C5_witness :
    (ensure_valid_token envNone (some tdFuture)).1 = GuardResult.token "AT1" :=
  (spec_C5_guard_gates_dispatch envNone (some tdFuture)
    (httpOk200 envlNoResult)).2 "AT1" (by decide)

/-- Claim C10: on an HTTP 200 response whose parsed body lacks the `result`
key, `_make_request` returns the body unchanged regardless of the `code`
value, and in general the API-error branch fires exactly when `code`
differs from 200 and `result` is the boolean false. -/
theorem spec_C10_result_key_semantics (env : Env) (stored : Option TokenData)
    (http : String → HttpOutcome) (tok : String) (calls : List NetCall) (body : Envelope)
    (hg : ensure_valid_token env stored = (GuardResult.token tok, calls))
    (hh : http tok = HttpOutcome.response 200 body) :
    (body.result = none → (make_request env stored http).1 = ExecResult.success body) ∧
    ((make_request env stored http).1 = ExecResult.apiError body.code body.message ↔
      (body.code ≠ some 200 ∧ body.result = some (RVal.rbool false))) := by
  have hm : make_request env stored http = (classifyResponse 200 body, [tok], calls) := by
    simp [make_request, hg, hh]
  rw [hm]
  constructor
  · intro hres
    simp [classifyResponse, hres]
  · by_cases hc : body.code ≠ some 200 ∧ body.result = some (RVal.rbool false)
    · simp [classifyResponse, hc]
    · simp [classifyResponse, hc]

/-- Witness for C10: an HTTP 200 body with `code:500` and no `result` key
is returned unchanged as a success. -/
theorem spec_C10_witness :
    (make_request envNone (some tdFuture) (httpOk200 envlNoResult)).1 =
      ExecResult.success envlNoResult :=
  (spec_C10_result_key_semantics envNone (some tdFuture) (httpOk200 envlNoResult)
    "AT1" [] envlNoResult (by decide) rfl).1 rfl

/-- Claim C1 counterexample: the scenario of the claim — HTTP 200 with
envelope `code:200, result:false, message:"insufficient balance"` — does
NOT raise: `_make_request` returns the body as a success (the error branch
requires `code != 200` as well), contradicting the claim. -/
theorem spec_C1_counterexample :
    make_request envNone (some tdFuture) (httpOk200 envlInsufficient) =
      (ExecResult.success envlInsufficient, ["AT1"], []) ∧
    (make_request envNone (some tdFuture) (httpOk200 envlInsufficient)).1 ≠
      ExecResult.apiError (some 200) (some "insufficient balance") := by decide

/-- Claim C1 (amended): on HTTP 200, the API error carrying the vendor's
message is raised exactly when the envelope has BOTH a code different from
200 and `result` exactly false, and a single request is dispatched (no
retry); an envelope with `code:200, result:false` is instead returned as a
success. -/
theorem spec_C1_amended (env : Env) (stored : Option TokenData)
    (http : String → HttpOutcome) (tok : String) (calls : List NetCall) (body : Envelope)
    (hg : ensure_valid_token env stored = (GuardResult.token tok, calls))
    (hh : http tok = HttpOutcome.response 200 body)
    (hc : body.code ≠ some 200)
    (hr : body.result = some (RVal.rbool false)) :
    make_request env stored http =
      (ExecResult.apiError body.code body.message, [tok], calls) := by
  simp [make_request, hg, hh, classifyResponse, hc, hr]

/-- Witness for the amended C1: an envelope with `code:1600, result:false`
yields the API error with the vendor's message, with exactly one dispatch
and no further network traffic. -/
theorem spec_C1_amended_witness :
    make_request envNone (some tdFuture) (httpOk200 envlApiErr) =
      (ExecResult.apiError (some 1600) (some "insufficient balance"), ["AT1"], []) :=
  spec_C1_amended envNone (some tdFuture) (httpOk200 envlApiErr) "AT1" [] envlApiErr
    (by decide) rfl (by decide) rfl

end CJD
